import Mathlib

/-!
Verification development for the conversational-tutor frontend.

The definitions below are a shallow embedding of the turn orchestrator of
`src/frontend/services/api.js` (the React `App` component: `handleUserInput`,
`handleSpeak`, `handleClearConversation`, `handleToggleMode`), of the backend
client payload construction in `src/frontend/src/services/api.js`
(`sendChatMessage`), of the voice-parameter table in
`src/frontend/src/services/speech.js` (`getVoiceConfig`), of the mascot
expression table in `src/frontend/src/components/Mascot.jsx`, and of
`stopRecording` in `src/frontend/src/services/audioRecorder.js`.

React state setters are modelled as successive snapshots of an explicit
`AppState`; an execution of a handler is the ordered list of snapshots
(one per setter call, i.e. one per observable instant).  Promise rejection
of the backend call, of the remote text-to-speech path and of the on-device
fallback are modelled as `Except Unit` parameters supplied to the handler.
-/

/-- The role of a chat message (`role: 'user' | 'assistant'` in the source). -/
inductive Role where
  | user
  | assistant
deriving DecidableEq

/-- A conversation message as built by `handleUserInput`
(`id` and `timestamp` are omitted: no claim mentions them). -/
structure Message where
  role : Role
  content : String
  emotion : Option String
  sources : List String
deriving DecidableEq

/-- The conversation mode (`mode` state, `'chat'` or `'query'`). -/
inductive Mode where
  | chat
  | query
deriving DecidableEq

/-- The React state of the `App` component in `src/frontend/services/api.js`:
`conversation`, `currentEmotion`, `isListening`, `isSpeaking`, `isLoading`,
`mode`, `sessionId`, `error` (`connectionStatus` is omitted: no claim
mentions it). -/
structure AppState where
  conversation : List Message
  currentEmotion : String
  isListening : Bool
  isSpeaking : Bool
  isLoading : Bool
  mode : Mode
  sessionId : Option String
  error : Option String
deriving DecidableEq

/-- A successful backend response body (`/chat` or `/query`):
`{text, emotion, session_id?, sources?}`. -/
structure ChatResponse where
  text : String
  emotion : String
  session_id : Option String
  sources : Option (List String)
deriving DecidableEq

/-- JavaScript truthiness of an optional string (`null`/`undefined` and the
empty string are falsy), used for `if (sessionId)` and
`if (response.session_id)` in the source. -/
def jsTruthy : Option String → Bool
  | none => false
  | some s => !(s == "")

/-- JavaScript `String.prototype.trim()`, used by the guard
`if (!text.trim()) return`: strips leading and trailing whitespace.
Written structurally over the character list so that it evaluates inside
the kernel. -/
def jsTrim (s : String) : String :=
  String.mk
    (((s.data.dropWhile Char.isWhitespace).reverse.dropWhile
      Char.isWhitespace).reverse)

/-- Whether an `Except` is a success; models a promise that fulfilled. -/
def exceptIsOk {ε α : Type} : Except ε α → Bool
  | Except.ok _ => true
  | Except.error _ => false

/-- The user message appended by `handleUserInput`:
`{role: 'user', content: text, timestamp}`. -/
def userMessage (text : String) : Message :=
  { role := Role.user, content := text, emotion := none, sources := [] }

/-- The assistant message appended on backend success:
`{role: 'assistant', content: response.text, emotion: response.emotion,
sources: response.sources || []}`. -/
def aiMessage (resp : ChatResponse) : Message :=
  { role := Role.assistant,
    content := resp.text,
    emotion := some resp.emotion,
    sources := resp.sources.getD [] }

/-- The apology message appended in the catch block of `handleUserInput`. -/
def errorMessage : Message :=
  { role := Role.assistant,
    content := "Sorry, I encountered an error. Please try again.",
    emotion := some "confused",
    sources := [] }

/-- Result of one `handleSpeak` call: the state snapshots observable while it
runs, the state at the instant its promise resolves, whether the on-device
fallback was invoked, and whether an `onended` callback of the audio element
is still pending when the promise resolves (the primary path resolves at
`play()`, i.e. when playback starts, and clears `isSpeaking` only in the
later `onended` event). -/
structure SpeakOutcome where
  instants : List AppState
  resolved : AppState
  fallbackUsed : Bool
  onEndedPending : Bool
deriving DecidableEq

/-- `handleSpeak(text, emotion)` of `src/frontend/services/api.js`,
lines 244-273.  `primary` is the outcome of the remote text-to-speech
request plus playback start (`apiService.convertTextToSpeech` and
`audioRef.current.play()`); `fallback` is the outcome of the on-device
`speechService.speak`.  The audio element is always rendered by the
component, so it is modelled as present.  The inner catch runs the fallback
and then clears `isSpeaking`; a fallback rejection reaches the outer catch,
which performs the same two setter calls and swallows the error, so the
function never rejects and never touches the `error` state. -/
def handleSpeak (s : AppState) (primary fallback : Except Unit Unit) :
    SpeakOutcome :=
  let s1 := { s with isSpeaking := true }
  match primary with
  | Except.ok _ =>
      { instants := [s1],
        resolved := s1,
        fallbackUsed := false,
        onEndedPending := true }
  | Except.error _ =>
      match fallback with
      | Except.ok _ =>
          let s2 := { s1 with isSpeaking := false }
          let s3 := { s2 with currentEmotion := "neutral" }
          { instants := [s1, s2, s3],
            resolved := s3,
            fallbackUsed := true,
            onEndedPending := false }
      | Except.error _ =>
          let s2 := { s1 with isSpeaking := false }
          let s3 := { s2 with currentEmotion := "neutral" }
          { instants := [s1, s2, s3],
            resolved := s3,
            fallbackUsed := true,
            onEndedPending := false }

/-- Result of one `handleUserInput` call: every state snapshot in order
(first element is the state at the call), the state after the last pending
event of the turn has run, and whether a backend request was issued. -/
structure TurnOutcome where
  instants : List AppState
  final : AppState
  backendCalled : Bool
deriving DecidableEq

/-- `handleUserInput(text)` of `src/frontend/services/api.js`,
lines 184-241.  `backend` is the outcome of
`apiService.sendChatMessage` / `apiService.sendQuery`; `primary` and
`fallback` are passed to `handleSpeak`.  The function returns normally in
every case (the catch block swallows the backend rejection and `handleSpeak`
never rejects), so the embedding is a total function.  When the primary
synthesis path was used, the `onended` callback of the audio element fires
after the `finally` block has cleared `isLoading`; those two late setter
calls are the tail of the snapshot list. -/
def handleUserInput (s : AppState) (text : String)
    (backend : Except Unit ChatResponse) (primary fallback : Except Unit Unit) :
    TurnOutcome :=
  if jsTrim text = "" then
    { instants := [s], final := s, backendCalled := false }
  else
    let s1 := { s with conversation := s.conversation ++ [userMessage text] }
    let s2 := { s1 with isLoading := true }
    let s3 := { s2 with currentEmotion := "thinking" }
    let s4 := { s3 with error := none }
    match backend with
    | Except.ok resp =>
        let s5 := if s.mode = Mode.chat ∧ jsTruthy resp.session_id then
            { s4 with sessionId := resp.session_id }
          else s4
        let s6 := { s5 with conversation := s5.conversation ++ [aiMessage resp] }
        let s7 := { s6 with currentEmotion := resp.emotion }
        let so := handleSpeak s7 primary fallback
        let s8 := { so.resolved with isLoading := false }
        let tail := if so.onEndedPending then
            let s9 := { s8 with isSpeaking := false }
            let s10 := { s9 with currentEmotion := "neutral" }
            [s8, s9, s10]
          else [s8]
        { instants := s :: s1 :: s2 :: s3 :: s4 :: s5 :: s6 :: s7 ::
            (so.instants ++ tail),
          final := (so.instants ++ tail).getLastD s8,
          backendCalled := true }
    | Except.error _ =>
        let s5 := { s4 with error := some "Failed to get response from AI tutor" }
        let s6 := { s5 with currentEmotion := "confused" }
        let s7 := { s6 with conversation := s6.conversation ++ [errorMessage] }
        let s8 := { s7 with isLoading := false }
        { instants := [s, s1, s2, s3, s4, s5, s6, s7, s8],
          final := s8,
          backendCalled := true }

/-- `handleClearConversation` of `src/frontend/services/api.js`,
lines 303-315 (the `reset()` of the spec).  `reset` is the outcome of the
backend call `apiService.resetConversation(sessionId)`, which is awaited
before any state is cleared; when it rejects, the catch block only logs, so
no state changes at all.  The backend call is made only when `sessionId` is
truthy. -/
def handleClearConversation (s : AppState) (reset : Except Unit Unit) :
    AppState :=
  if jsTruthy s.sessionId then
    match reset with
    | Except.ok _ =>
        { s with
          conversation := [],
          sessionId := none,
          currentEmotion := "neutral",
          error := none }
    | Except.error _ => s
  else
    { s with
      conversation := [],
      sessionId := none,
      currentEmotion := "neutral",
      error := none }

/-- `setMode(prev => prev === 'chat' ? 'query' : 'chat')`. -/
def toggledMode : Mode → Mode
  | Mode.chat => Mode.query
  | Mode.query => Mode.chat

/-- `handleToggleMode` of `src/frontend/services/api.js`, lines 318-321:
flips the mode, then runs `handleClearConversation`. -/
def handleToggleMode (s : AppState) (reset : Except Unit Unit) : AppState :=
  handleClearConversation { s with mode := toggledMode s.mode } reset

/-- The request body built by `sendChatMessage(question, sessionId)` in
`src/frontend/src/services/api.js`, lines 38-48: `session_id = none` means
the field is absent from the JSON payload. -/
structure ChatPayload where
  question : String
  session_id : Option String
deriving DecidableEq

/-- `const payload = { question }; if (sessionId) payload.session_id = sessionId`. -/
def sendChatMessagePayload (question : String) (sessionId : Option String) :
    ChatPayload :=
  if jsTruthy sessionId then { question := question, session_id := sessionId }
  else { question := question, session_id := none }

/-- The recognized emotion tags, from `EMOTIONS` in
`src/frontend/src/utils/constants.js`. -/
def EMOTIONS : List String :=
  ["neutral", "happy", "excited", "thinking", "confused", "explaining",
   "encouraging", "listening", "surprised"]

/-- `UI_CONFIG.CONVERSATION_MAX_MESSAGES` in
`src/frontend/src/utils/constants.js`, line 67. -/
def CONVERSATION_MAX_MESSAGES : Nat := 100

/-- Voice parameters for one emotion, from `getVoiceConfig` in
`src/frontend/src/services/speech.js`. -/
structure VoiceConfig where
  rate : ℚ
  pitch : ℚ
  volume : ℚ
  gender : String
  accent : String
deriving DecidableEq

/-- The `configs` object literal of `getVoiceConfig`
(`src/frontend/src/services/speech.js`, lines 176-186), as an association
list in source order. -/
def voiceConfigs : List (String × VoiceConfig) :=
  [("happy", ⟨1.1, 1.2, 0.9, "female", "us"⟩),
   ("excited", ⟨1.2, 1.3, 1.0, "female", "us"⟩),
   ("thinking", ⟨0.8, 0.9, 0.8, "male", "uk"⟩),
   ("confused", ⟨0.7, 0.8, 0.7, "female", "us"⟩),
   ("explaining", ⟨0.9, 1.0, 0.9, "male", "us"⟩),
   ("encouraging", ⟨1.0, 1.1, 0.9, "female", "us"⟩),
   ("listening", ⟨1.0, 1.0, 0.8, "female", "us"⟩),
   ("surprised", ⟨1.1, 1.2, 0.9, "female", "us"⟩),
   ("neutral", ⟨1.0, 1.0, 0.8, "female", "us"⟩)]

/-- `getVoiceConfig(emotion)`: `configs[emotion] || configs.neutral`. -/
def getVoiceConfig (emotion : String) : VoiceConfig :=
  (voiceConfigs.lookup emotion).getD ⟨1.0, 1.0, 0.8, "female", "us"⟩

/-- One entry of the mascot expression table. -/
structure Expression where
  emoji : String
  color : String
deriving DecidableEq

/-- `EMOTION_EXPRESSIONS` of `src/frontend/src/components/Mascot.jsx`,
lines 5-15, as an association list in source order. -/
def EMOTION_EXPRESSIONS : List (String × Expression) :=
  [("neutral", ⟨"😊", "#4facfe"⟩),
   ("happy", ⟨"😄", "#4ecdc4"⟩),
   ("excited", ⟨"🤩", "#ff6b6b"⟩),
   ("thinking", ⟨"🤔", "#ffa726"⟩),
   ("confused", ⟨"😕", "#ef5350"⟩),
   ("explaining", ⟨"🧠", "#ab47bc"⟩),
   ("encouraging", ⟨"💪", "#66bb6a"⟩),
   ("listening", ⟨"👂", "#42a5f5"⟩),
   ("surprised", ⟨"😮", "#ff7043"⟩)]

/-- `const currentExpression = EMOTION_EXPRESSIONS[emotion] ||
EMOTION_EXPRESSIONS.neutral` (`src/frontend/src/components/Mascot.jsx`,
line 23). -/
def currentExpression (emotion : String) : Expression :=
  (EMOTION_EXPRESSIONS.lookup emotion).getD ⟨"😊", "#4facfe"⟩

/-- The possible states of a `MediaRecorder`. -/
inductive RecorderState where
  | inactive
  | recording
  | paused
deriving DecidableEq

/-- The fields of `AudioRecorder` in
`src/frontend/src/services/audioRecorder.js` that `stopRecording` reads:
`mediaRecorder = none` models `this.mediaRecorder === null`; when present,
its state and MIME type are carried along with the accumulated
`audioChunks` (chunks abstracted as strings). -/
structure AudioRecorder where
  mediaRecorder : Option RecorderState
  mimeType : String
  audioChunks : List String
deriving DecidableEq

/-- The blob assembled in the `onstop` handler:
`new Blob(this.audioChunks, { type: this.mediaRecorder.mimeType })`. -/
structure RecBlob where
  data : List String
  type : String
deriving DecidableEq

/-- `stopRecording()` of `src/frontend/src/services/audioRecorder.js`,
lines 87-109.  `stopEvent` is which of the installed `MediaRecorder`
handlers fires after `stop()` is called: `Except.ok` for `onstop`,
`Except.error` for `onerror`.  The returned value models the promise:
`Except.ok none` is resolution with `null`, `Except.ok (some blob)` is
resolution with the audio blob, `Except.error` is rejection. -/
def stopRecording (r : AudioRecorder) (stopEvent : Except Unit Unit) :
    Except String (Option RecBlob) :=
  match r.mediaRecorder with
  | none => Except.ok none
  | some st =>
      if st = RecorderState.inactive then Except.ok none
      else
        match stopEvent with
        | Except.ok _ =>
            Except.ok (some { data := r.audioChunks, type := r.mimeType })
        | Except.error _ => Except.error "Recording error"

/-- An idle initial state: fresh app, chat mode, no session. -/
def idleState : AppState :=
  { conversation := [],
    currentEmotion := "neutral",
    isListening := false,
    isSpeaking := false,
    isLoading := false,
    mode := Mode.chat,
    sessionId := none,
    error := none }

/-- A sample successful backend response. -/
def sampleResponse : ChatResponse :=
  { text := "Python is a programming language.",
    emotion := "explaining",
    session_id := some "sess-1",
    sources := none }

/-- A state in the middle of a turn: `isLoading` is set, so the machine is
outside Idle. -/
def busyState : AppState :=
  { conversation := [],
    currentEmotion := "thinking",
    isListening := false,
    isSpeaking := false,
    isLoading := true,
    mode := Mode.chat,
    sessionId := none,
    error := none }

/-- An idle state that already holds a backend session and one message. -/
def sessionState : AppState :=
  { conversation := [userMessage "earlier question"],
    currentEmotion := "happy",
    isListening := false,
    isSpeaking := false,
    isLoading := false,
    mode := Mode.chat,
    sessionId := some "sess-1",
    error := none }

/-- An idle state whose log already holds `CONVERSATION_MAX_MESSAGES`
messages. -/
def fullState : AppState :=
  { conversation := List.replicate CONVERSATION_MAX_MESSAGES (userMessage "x"),
    currentEmotion := "neutral",
    isListening := false,
    isSpeaking := false,
    isLoading := false,
    mode := Mode.chat,
    sessionId := none,
    error := none }

/-- A recorder on which `initialize()` has never been run
(`this.mediaRecorder === null`). -/
def freshRecorder : AudioRecorder :=
  { mediaRecorder := none, mimeType := "audio/webm", audioChunks := [] }

/-- A recorder in the middle of a recording. -/
def activeRecorder : AudioRecorder :=
  { mediaRecorder := some RecorderState.recording,
    mimeType := "audio/webm",
    audioChunks := ["c1"] }

/-- A backend response carrying an emotion tag outside the recognized
enumeration. -/
def unknownEmotionResponse : ChatResponse :=
  { text := "Let me think about that.",
    emotion := "angry",
    session_id := none,
    sources := none }

/-! ## Helper lemmas -/

/-- Looking up a key absent from an association list yields `none`. -/
theorem lookup_eq_none_of_forall_ne {β : Type} (e : String)
    (l : List (String × β)) (h : ∀ q ∈ l, q.1 ≠ e) : l.lookup e = none := by
  induction l with
  | nil => rfl
  | cons a t ih =>
      obtain ⟨k, b⟩ := a
      have h1 : ¬ (e == k) = true := by
        simp only [beq_iff_eq]
        intro he
        exact h (k, b) (List.mem_cons_self _ _) (by simp [he])
      have h2 : ∀ q ∈ t, q.1 ≠ e := fun q hq => h q (List.mem_cons_of_mem _ hq)
      simp only [List.lookup, Bool.not_eq_true] at h1 ⊢
      rw [h1]
      exact ih h2

/-- Shape of the final state of an accepted turn whose backend call
succeeds, for every synthesis outcome. -/
theorem handleUserInput_ok_final (s : AppState) (text : String)
    (resp : ChatResponse) (p f : Except Unit Unit) (h : ¬ jsTrim text = "") :
    (handleUserInput s text (Except.ok resp) p f).final =
      { s with
        conversation := s.conversation ++ [userMessage text, aiMessage resp],
        currentEmotion := "neutral",
        isSpeaking := false,
        isLoading := false,
        error := none,
        sessionId := if s.mode = Mode.chat ∧ jsTruthy resp.session_id then
            resp.session_id
          else s.sessionId } := by
  unfold handleUserInput
  rw [if_neg h]
  by_cases hc : s.mode = Mode.chat ∧ jsTruthy resp.session_id <;>
    cases p <;> cases f <;>
      simp [handleSpeak, hc, List.getLastD]

/-- Shape of the final state of an accepted turn whose backend call
rejects. -/
theorem handleUserInput_error_final (s : AppState) (text : String)
    (u : Unit) (p f : Except Unit Unit) (h : ¬ jsTrim text = "") :
    (handleUserInput s text (Except.error u) p f).final =
      { s with
        conversation := s.conversation ++ [userMessage text, errorMessage],
        currentEmotion := "confused",
        isLoading := false,
        error := some "Failed to get response from AI tutor" } := by
  unfold handleUserInput
  rw [if_neg h]
  simp [List.getLastD]

/-- The backend is called exactly when the trimmed text is nonempty,
whatever the rest of the state. -/
theorem handleUserInput_backendCalled (s : AppState) (text : String)
    (backend : Except Unit ChatResponse) (p f : Except Unit Unit) :
    (handleUserInput s text backend p f).backendCalled
      = !(jsTrim text == "") := by
  unfold handleUserInput
  by_cases h : jsTrim text = ""
  · rw [if_pos h]
    simp [h]
  · rw [if_neg h]
    cases backend <;> simp [h]

/-- `handleUserInput` never writes `isListening`: every snapshot of the turn
carries the value the flag had at submission. -/
theorem handleUserInput_isListening (s : AppState) (text : String)
    (backend : Except Unit ChatResponse) (p f : Except Unit Unit) :
    ∀ t ∈ (handleUserInput s text backend p f).instants,
      t.isListening = s.isListening := by
  intro t ht
  unfold handleUserInput at ht
  by_cases h : jsTrim text = ""
  · rw [if_pos h] at ht
    simp at ht
    subst ht
    rfl
  · rw [if_neg h] at ht
    cases backend with
    | ok resp =>
        by_cases hc : s.mode = Mode.chat ∧ jsTruthy resp.session_id <;>
          cases p <;> cases f <;>
            simp [handleSpeak, hc] at ht <;>
              rcases ht with rfl | rfl | rfl | rfl | rfl | rfl | rfl | rfl |
                rfl | rfl | rfl | rfl <;> rfl
    | error u =>
        simp at ht
        rcases ht with rfl | rfl | rfl | rfl | rfl | rfl | rfl | rfl | rfl <;>
          rfl

/-- Every accepted turn whose backend call succeeds passes through a
snapshot in which `isLoading` and `isSpeaking` are both set: `handleSpeak`
raises `isSpeaking` while the `finally` block that clears `isLoading` has
not yet run. -/
theorem handleUserInput_loading_and_speaking (s : AppState) (text : String)
    (resp : ChatResponse) (p f : Except Unit Unit) (h : ¬ jsTrim text = "") :
    ∃ t ∈ (handleUserInput s text (Except.ok resp) p f).instants,
      t.isLoading = true ∧ t.isSpeaking = true := by
  unfold handleUserInput
  rw [if_neg h]
  by_cases hc : s.mode = Mode.chat ∧ jsTruthy resp.session_id <;>
    cases p <;> cases f <;>
      simp [handleSpeak, hc]

/-! ## Claims -/

/-- C1, counterexample: the flags are not mutually exclusive.  On a
concrete successful turn driven by `handleUserInput` there is an instant at
which `isLoading` and `isSpeaking` are both true: `handleSpeak` sets
`isSpeaking` before the `finally` block of `handleUserInput` clears
`isLoading`. -/
theorem c1_mutual_exclusion_counterexample :
    ∃ t ∈ (handleUserInput idleState "hi" (Except.ok sampleResponse)
        (Except.ok ()) (Except.ok ())).instants,
      t.isLoading = true ∧ t.isSpeaking = true := by decide

/-- C1, amended: during a turn driven by `handleUserInput`, `isListening`
keeps the value it had at submission (the handler never writes it), but
`isLoading` and `isSpeaking` are not mutually exclusive: every accepted
turn whose backend call succeeds passes through an instant with both flags
true, because `isLoading` stays true for the whole `handleSpeak` phase. -/
theorem c1_turn_flags (s : AppState) (text : String)
    (backend : Except Unit ChatResponse) (resp : ChatResponse)
    (p f : Except Unit Unit) :
    (∀ t ∈ (handleUserInput s text backend p f).instants,
        t.isListening = s.isListening) ∧
    (¬ jsTrim text = "" →
      ∃ t ∈ (handleUserInput s text (Except.ok resp) p f).instants,
        t.isLoading = true ∧ t.isSpeaking = true) :=
  ⟨handleUserInput_isListening s text backend p f,
   fun h => handleUserInput_loading_and_speaking s text resp p f h⟩

/-- Witness for `c1_turn_flags` at a concrete accepted turn. -/
theorem c1_turn_flags_witness :
    (∀ t ∈ (handleUserInput idleState "hey" (Except.ok sampleResponse)
        (Except.ok ()) (Except.ok ())).instants,
        t.isListening = idleState.isListening) ∧
    (∃ t ∈ (handleUserInput idleState "hey" (Except.ok sampleResponse)
        (Except.ok ()) (Except.ok ())).instants,
        t.isLoading = true ∧ t.isSpeaking = true) :=
  ⟨(c1_turn_flags idleState "hey" (Except.ok sampleResponse) sampleResponse
      (Except.ok ()) (Except.ok ())).1,
   (c1_turn_flags idleState "hey" (Except.ok sampleResponse) sampleResponse
      (Except.ok ()) (Except.ok ())).2 (by decide)⟩

/-- C2, counterexample: a call made while the machine is not Idle
(`busyState` has `isLoading = true`) is not rejected: the backend is
called and the conversation log changes. -/
theorem c2_busy_counterexample :
    (handleUserInput busyState "hi" (Except.ok sampleResponse)
        (Except.ok ()) (Except.ok ())).backendCalled = true ∧
    ¬ (handleUserInput busyState "hi" (Except.ok sampleResponse)
        (Except.ok ()) (Except.ok ())).final.conversation =
      busyState.conversation := by decide

/-- C2, amended: `handleUserInput` itself never checks `isLoading`,
`isSpeaking` or `isListening` — a submission with nonempty trimmed text is
accepted and processed in full even while a turn is in flight (only the UI
buttons are disabled while busy); the only calls rejected as a no-op are
those whose text is empty after trimming. -/
theorem c2_busy_accepted (s : AppState) (text : String) (resp : ChatResponse)
    (p f : Except Unit Unit)
    (_hbusy : s.isLoading = true ∨ s.isSpeaking = true ∨ s.isListening = true)
    (h : ¬ jsTrim text = "") :
    (handleUserInput s text (Except.ok resp) p f).backendCalled = true ∧
    (handleUserInput s text (Except.ok resp) p f).final.conversation =
      s.conversation ++ [userMessage text, aiMessage resp] := by
  constructor
  · rw [handleUserInput_backendCalled]
    simp [h]
  · rw [handleUserInput_ok_final s text resp p f h]

/-- Witness for `c2_busy_accepted` on a busy state. -/
theorem c2_busy_accepted_witness :
    (handleUserInput busyState "hello" (Except.ok sampleResponse)
        (Except.ok ()) (Except.ok ())).backendCalled = true ∧
    (handleUserInput busyState "hello" (Except.ok sampleResponse)
        (Except.ok ()) (Except.ok ())).final.conversation =
      busyState.conversation ++
        [userMessage "hello", aiMessage sampleResponse] :=
  c2_busy_accepted busyState "hello" sampleResponse (Except.ok ())
    (Except.ok ()) (Or.inl rfl) (by decide)

/-- C3 (confirmed): when the backend chat/query call rejects, exactly one
apology assistant message is appended right after the user message, the
emotion becomes `confused`, and `isLoading` returns to false.  No exception
propagates: the embedding of `handleUserInput` is a total function because
the catch block swallows the rejection. -/
theorem c3_transport_error_turn (s : AppState) (text : String)
    (p f : Except Unit Unit) (h : ¬ jsTrim text = "") :
    (handleUserInput s text (Except.error ()) p f).final.conversation =
      s.conversation ++ [userMessage text, errorMessage] ∧
    (handleUserInput s text (Except.error ()) p f).final.currentEmotion =
      "confused" ∧
    (handleUserInput s text (Except.error ()) p f).final.isLoading = false := by
  rw [handleUserInput_error_final s text () p f h]
  exact ⟨rfl, rfl, rfl⟩

/-- Witness for `c3_transport_error_turn` at a concrete turn. -/
theorem c3_transport_error_turn_witness :
    (handleUserInput idleState "What is Python?" (Except.error ())
        (Except.ok ()) (Except.ok ())).final.conversation =
      idleState.conversation ++
        [userMessage "What is Python?", errorMessage] ∧
    (handleUserInput idleState "What is Python?" (Except.error ())
        (Except.ok ()) (Except.ok ())).final.currentEmotion = "confused" ∧
    (handleUserInput idleState "What is Python?" (Except.error ())
        (Except.ok ()) (Except.ok ())).final.isLoading = false :=
  c3_transport_error_turn idleState "What is Python?" (Except.ok ())
    (Except.ok ()) (by decide)

/-- C4 (confirmed): the on-device fallback is invoked exactly when the
primary remote text-to-speech path rejects; when the primary rejects and
the fallback succeeds, `handleSpeak` never touches the `error` state,
`isSpeaking` is true at the instant the fallback plays, and the turn still
completes normally (`isLoading` cleared, no error surfaced, both messages
kept). -/
theorem c4_tts_fallback (s : AppState) (text : String) (resp : ChatResponse)
    (p f : Except Unit Unit) :
    ((handleSpeak s p f).fallbackUsed = true ↔ exceptIsOk p = false) ∧
    (∀ t ∈ (handleSpeak s (Except.error ()) (Except.ok ())).instants,
        t.error = s.error) ∧
    ((handleSpeak s (Except.error ())
        (Except.ok ())).instants.headD s).isSpeaking = true ∧
    (¬ jsTrim text = "" →
      (handleUserInput s text (Except.ok resp) (Except.error ())
          (Except.ok ())).final.isLoading = false ∧
      (handleUserInput s text (Except.ok resp) (Except.error ())
          (Except.ok ())).final.error = none ∧
      (handleUserInput s text (Except.ok resp) (Except.error ())
          (Except.ok ())).final.conversation =
        s.conversation ++ [userMessage text, aiMessage resp]) := by
  refine ⟨?_, ?_, ?_, ?_⟩
  · cases p <;> cases f <;> simp [handleSpeak, exceptIsOk]
  · intro t ht
    simp [handleSpeak] at ht
    rcases ht with rfl | rfl | rfl <;> rfl
  · rfl
  · intro h
    rw [handleUserInput_ok_final s text resp (Except.error ()) (Except.ok ()) h]
    exact ⟨rfl, rfl, rfl⟩

/-- Witness for `c4_tts_fallback` at a concrete turn whose primary
synthesis path rejects and whose fallback succeeds. -/
theorem c4_tts_fallback_witness :
    ((handleSpeak idleState (Except.error ()) (Except.ok ())).fallbackUsed
        = true ↔
      exceptIsOk (Except.error () : Except Unit Unit) = false) ∧
    (handleUserInput idleState "hello there" (Except.ok sampleResponse)
        (Except.error ()) (Except.ok ())).final.isLoading = false ∧
    (handleUserInput idleState "hello there" (Except.ok sampleResponse)
        (Except.error ()) (Except.ok ())).final.error = none :=
  ⟨(c4_tts_fallback idleState "hello there" sampleResponse
      (Except.error ()) (Except.ok ())).1,
   ((c4_tts_fallback idleState "hello there" sampleResponse
      (Except.error ()) (Except.ok ())).2.2.2 (by decide)).1,
   ((c4_tts_fallback idleState "hello there" sampleResponse
      (Except.error ()) (Except.ok ())).2.2.2 (by decide)).2.1⟩

/-- C5 (confirmed): a backend emotion tag outside the recognized
enumeration degrades to neutral without failing the turn: the mascot
expression rendered for it is the neutral entry, the synthesis voice
parameters are the neutral entry of the lookup table, and the turn
completes normally (both messages kept, `isLoading` cleared, emotion back
to neutral after speech). -/
theorem c5_unknown_emotion (e : String) (s : AppState) (text : String)
    (resp : ChatResponse) (p f : Except Unit Unit)
    (he : e ∉ EMOTIONS) (_hresp : resp.emotion = e)
    (ht : ¬ jsTrim text = "") :
    getVoiceConfig e = getVoiceConfig "neutral" ∧
    currentExpression e = currentExpression "neutral" ∧
    (handleUserInput s text (Except.ok resp) p f).final.isLoading = false ∧
    (handleUserInput s text (Except.ok resp) p f).final.conversation =
      s.conversation ++ [userMessage text, aiMessage resp] ∧
    (handleUserInput s text (Except.ok resp) p f).final.currentEmotion =
      "neutral" := by
  have hkeysV : ∀ q ∈ voiceConfigs, q.1 ∈ EMOTIONS := by decide
  have hkeysE : ∀ q ∈ EMOTION_EXPRESSIONS, q.1 ∈ EMOTIONS := by decide
  have hv : voiceConfigs.lookup e = none :=
    lookup_eq_none_of_forall_ne e _ (fun q hq heq => he (heq ▸ hkeysV q hq))
  have hx : EMOTION_EXPRESSIONS.lookup e = none :=
    lookup_eq_none_of_forall_ne e _ (fun q hq heq => he (heq ▸ hkeysE q hq))
  refine ⟨?_, ?_, ?_, ?_, ?_⟩
  · simp only [getVoiceConfig, hv, Option.getD_none]
    rfl
  · simp only [currentExpression, hx, Option.getD_none]
    rfl
  · rw [handleUserInput_ok_final s text resp p f ht]
  · rw [handleUserInput_ok_final s text resp p f ht]
  · rw [handleUserInput_ok_final s text resp p f ht]

/-- Witness for `c5_unknown_emotion` at the unrecognized tag `angry`. -/
theorem c5_unknown_emotion_witness :
    getVoiceConfig "angry" = getVoiceConfig "neutral" ∧
    currentExpression "angry" = currentExpression "neutral" ∧
    (handleUserInput idleState "hi there"
        (Except.ok unknownEmotionResponse)
        (Except.ok ()) (Except.ok ())).final.isLoading = false ∧
    (handleUserInput idleState "hi there"
        (Except.ok unknownEmotionResponse)
        (Except.ok ()) (Except.ok ())).final.conversation =
      idleState.conversation ++
        [userMessage "hi there", aiMessage unknownEmotionResponse] ∧
    (handleUserInput idleState "hi there"
        (Except.ok unknownEmotionResponse)
        (Except.ok ()) (Except.ok ())).final.currentEmotion = "neutral" :=
  c5_unknown_emotion "angry" idleState "hi there" unknownEmotionResponse
    (Except.ok ()) (Except.ok ()) (by decide) rfl (by decide)

/-- C6, counterexample: the log is not bounded by the configured maximum.
Starting from a log already holding `CONVERSATION_MAX_MESSAGES` (= 100)
messages, one accepted turn leaves the log at 102 messages — nothing is
ever dropped. -/
theorem c6_bound_counterexample :
    CONVERSATION_MAX_MESSAGES <
      (handleUserInput fullState "hi" (Except.ok sampleResponse)
        (Except.ok ()) (Except.ok ())).final.conversation.length := by
  rw [handleUserInput_ok_final fullState "hi" sampleResponse (Except.ok ())
    (Except.ok ()) (by decide)]
  simp [fullState, CONVERSATION_MAX_MESSAGES]

/-- C6, amended: the conversation log is unbounded.  Every accepted turn
appends the user message followed by exactly one assistant message, keeps
every previous entry unchanged, and never drops anything; the constant
`CONVERSATION_MAX_MESSAGES` is defined in the configuration but no
operation enforces it. -/
theorem c6_log_unbounded (s : AppState) (text : String)
    (backend : Except Unit ChatResponse) (p f : Except Unit Unit)
    (h : ¬ jsTrim text = "") :
    ∃ m, (handleUserInput s text backend p f).final.conversation =
        s.conversation ++ [userMessage text, m] ∧
      (handleUserInput s text backend p f).final.conversation.length =
        s.conversation.length + 2 := by
  cases backend with
  | ok resp =>
      refine ⟨aiMessage resp, ?_, ?_⟩
      · rw [handleUserInput_ok_final s text resp p f h]
      · rw [handleUserInput_ok_final s text resp p f h]
        simp
  | error u =>
      refine ⟨errorMessage, ?_, ?_⟩
      · rw [handleUserInput_error_final s text u p f h]
      · rw [handleUserInput_error_final s text u p f h]
        simp

/-- Witness for `c6_log_unbounded` at a concrete turn. -/
theorem c6_log_unbounded_witness :
    ∃ m, (handleUserInput idleState "hi" (Except.ok sampleResponse)
        (Except.ok ()) (Except.ok ())).final.conversation =
      idleState.conversation ++ [userMessage "hi", m] ∧
      (handleUserInput idleState "hi" (Except.ok sampleResponse)
        (Except.ok ()) (Except.ok ())).final.conversation.length =
      idleState.conversation.length + 2 :=
  c6_log_unbounded idleState "hi" (Except.ok sampleResponse)
    (Except.ok ()) (Except.ok ()) (by decide)

/-- C7, counterexample: toggling the mode does not clear the session for
every state.  With a live session whose backend `/reset` call rejects,
`handleClearConversation` catches the rejection before any state is
cleared: the log, the `sessionId` and the emotion all survive the mode
toggle. -/
theorem c7_toggle_counterexample :
    ¬ ((handleToggleMode sessionState (Except.error ())).conversation = [] ∧
       (handleToggleMode sessionState (Except.error ())).sessionId = none ∧
       (handleToggleMode sessionState (Except.error ())).currentEmotion =
         "neutral") := by decide

/-- C7, amended: toggling the mode always flips `mode`; it clears the
message log, nulls `sessionId` and resets the emotion to neutral provided
no (truthy) session exists or the backend `/reset` call succeeds.  When a
session exists and `/reset` rejects, the log, the `sessionId` and the
emotion are left untouched (only the mode flips). -/
theorem c7_toggle_mode (s : AppState) (reset : Except Unit Unit) :
    (handleToggleMode s reset).mode = toggledMode s.mode ∧
    ((jsTruthy s.sessionId = false ∨ reset = Except.ok ()) →
      (handleToggleMode s reset).conversation = [] ∧
      (handleToggleMode s reset).sessionId = none ∧
      (handleToggleMode s reset).currentEmotion = "neutral") ∧
    (jsTruthy s.sessionId = true → reset = Except.error () →
      (handleToggleMode s reset).conversation = s.conversation ∧
      (handleToggleMode s reset).sessionId = s.sessionId ∧
      (handleToggleMode s reset).currentEmotion = s.currentEmotion) := by
  unfold handleToggleMode handleClearConversation
  by_cases hs : jsTruthy s.sessionId <;> cases reset <;> simp [hs]

/-- Witness for `c7_toggle_mode`: a successful reset clears everything, a
rejected reset keeps the session. -/
theorem c7_toggle_mode_witness :
    ((handleToggleMode sessionState (Except.ok ())).conversation = [] ∧
     (handleToggleMode sessionState (Except.ok ())).sessionId = none) ∧
    (handleToggleMode sessionState (Except.error ())).sessionId =
      some "sess-1" := by
  have h1 := c7_toggle_mode sessionState (Except.ok ())
  have h2 := c7_toggle_mode sessionState (Except.error ())
  refine ⟨⟨(h1.2.1 (Or.inr rfl)).1, (h1.2.1 (Or.inr rfl)).2.1⟩, ?_⟩
  exact ((h2.2.2 (by decide) rfl).2.1).trans rfl

/-- C8, counterexample: after a `reset()` made while a live session exists
and whose backend `/reset` call rejects, the stored `sessionId` survives,
so the next chat request still carries the old `session_id`. -/
theorem c8_reset_counterexample :
    (sendChatMessagePayload "hello"
        (handleClearConversation sessionState (Except.error ())).sessionId
      ).session_id = some "sess-1" := by decide

/-- C8, amended: in chat mode the `session_id` returned by the backend is
stored and echoed on subsequent chat requests (whenever it is truthy), and
after a reset whose backend `/reset` call succeeds — or made with no live
session — the first chat request carries no `session_id` field.  When the
`/reset` call rejects, the old `session_id` is still sent. -/
theorem c8_session_flow (s : AppState) (text q : String)
    (resp : ChatResponse) (p f : Except Unit Unit) (sid : Option String) :
    (s.mode = Mode.chat → jsTruthy resp.session_id = true →
      ¬ jsTrim text = "" →
      (handleUserInput s text (Except.ok resp) p f).final.sessionId =
        resp.session_id) ∧
    (jsTruthy sid = true → (sendChatMessagePayload q sid).session_id = sid) ∧
    (sendChatMessagePayload q
        (handleClearConversation s (Except.ok ())).sessionId).session_id =
      none := by
  refine ⟨?_, ?_, ?_⟩
  · intro hm hsid ht
    rw [handleUserInput_ok_final s text resp p f ht]
    simp [hm, hsid]
  · intro hsid
    simp [sendChatMessagePayload, hsid]
  · unfold handleClearConversation
    by_cases hs : jsTruthy s.sessionId <;>
      simp [hs, sendChatMessagePayload, jsTruthy]

/-- Witness for `c8_session_flow` at concrete exchanges. -/
theorem c8_session_flow_witness :
    (handleUserInput idleState "hi" (Except.ok sampleResponse)
        (Except.ok ()) (Except.ok ())).final.sessionId = some "sess-1" ∧
    (sendChatMessagePayload "more" (some "sess-1")).session_id =
      some "sess-1" ∧
    (sendChatMessagePayload "hello"
        (handleClearConversation sessionState (Except.ok ())).sessionId
      ).session_id = none := by
  have h := c8_session_flow idleState "hi" "more" sampleResponse
    (Except.ok ()) (Except.ok ()) (some "sess-1")
  refine ⟨h.1 rfl (by decide) (by decide), h.2.1 (by decide), ?_⟩
  exact (c8_session_flow sessionState "hi" "hello" sampleResponse
    (Except.ok ()) (Except.ok ()) none).2.2

/-- C9 (confirmed): submitting text that is empty after trimming is a
complete no-op: the single snapshot is the initial state, the final state
is unchanged (log, flags, emotion, `sessionId` and all other fields), and
no backend call is issued. -/
theorem c9_blank_input_noop (s : AppState) (text : String)
    (backend : Except Unit ChatResponse) (p f : Except Unit Unit)
    (h : jsTrim text = "") :
    (handleUserInput s text backend p f).final = s ∧
    (handleUserInput s text backend p f).backendCalled = false ∧
    (handleUserInput s text backend p f).instants = [s] := by
  unfold handleUserInput
  rw [if_pos h]
  exact ⟨rfl, rfl, rfl⟩

/-- Witness for `c9_blank_input_noop` on whitespace-only input. -/
theorem c9_blank_input_noop_witness :
    (handleUserInput idleState "   " (Except.ok sampleResponse)
        (Except.ok ()) (Except.ok ())).final = idleState ∧
    (handleUserInput idleState "   " (Except.ok sampleResponse)
        (Except.ok ()) (Except.ok ())).backendCalled = false ∧
    (handleUserInput idleState "   " (Except.ok sampleResponse)
        (Except.ok ()) (Except.ok ())).instants = [idleState] :=
  c9_blank_input_noop idleState "   " (Except.ok sampleResponse)
    (Except.ok ()) (Except.ok ()) (by decide)

/-- C10 (confirmed): `stopRecording` resolves with `null` — and never
rejects — whenever no `MediaRecorder` exists or its state is `inactive`;
conversely a blob is produced only when a recorder exists in a
non-`inactive` state (a recording was actually in progress). -/
theorem c10_stopRecording_contract (r : AudioRecorder)
    (stopEvent : Except Unit Unit) :
    ((r.mediaRecorder = none ∨ r.mediaRecorder = some RecorderState.inactive)
      → stopRecording r stopEvent = Except.ok none) ∧
    (∀ b : RecBlob, stopRecording r stopEvent = Except.ok (some b) →
      ¬ r.mediaRecorder = none ∧
      ¬ r.mediaRecorder = some RecorderState.inactive) := by
  obtain ⟨mr, mt, ch⟩ := r
  constructor
  · rintro (h | h) <;> subst h <;> simp [stopRecording]
  · intro b hb
    cases mr with
    | none => simp [stopRecording] at hb
    | some st => cases st <;> cases stopEvent <;> simp_all [stopRecording]

/-- Witness for `c10_stopRecording_contract`: an uninitialized recorder
resolves with `null`; an active recorder whose `onstop` fires yields a
blob, so its state was not `inactive`. -/
theorem c10_stopRecording_contract_witness :
    stopRecording freshRecorder (Except.ok ()) = Except.ok none ∧
    (¬ activeRecorder.mediaRecorder = none ∧
     ¬ activeRecorder.mediaRecorder = some RecorderState.inactive) :=
  ⟨(c10_stopRecording_contract freshRecorder (Except.ok ())).1 (Or.inl rfl),
   (c10_stopRecording_contract activeRecorder (Except.ok ())).2
     { data := ["c1"], type := "audio/webm" } rfl⟩
